import Mathlib

/-!
Shallow embedding of the IMDb Dataset Downloader API core pipeline
(`app/services/dataset_service.py`, `app/services/blob_storage_service.py`,
`app/api/v1/datasets.py`, registry from `app/core/config.py`).

The storage backend (local directory of files, or Azure blob container) is
modelled as an association list from artifact name to byte content.  HTTP
responses and the gzip library are external collaborators: they enter the
model as explicit data (`HttpResponse`) and as function parameters
(`gunzipStream` for the streaming `gzip.open`/`copyfileobj` path,
`gunzip` for the whole-buffer `gzip.decompress` path).  Concurrent fetch
tasks write to distinct registry names and are joined with
`asyncio.gather`, so the batch is linearized in registry order, which is
also the order in which results are aggregated.
-/

namespace IMDbDownloader

/-- Raw file content: a list of byte values. -/
abbrev Bytes := List Nat

/-- The storage backend state: artifact name ↦ content.
Models both the local download directory and the blob container. -/
abbrev Store := List (String × Bytes)

/-- Look an artifact up by name. -/
def storeGet (s : Store) (n : String) : Option Bytes :=
  (s.find? (fun p => p.1 == n)).map Prod.snd

/-- `Path.exists()` / `_blob_exists`: does the backend hold the name? -/
def storeExists (s : Store) (n : String) : Bool :=
  (storeGet s n).isSome

/-- `Path.unlink()` / `delete_blob`: remove an artifact. -/
def storeDelete (s : Store) (n : String) : Store :=
  s.filter (fun p => p.1 != n)

/-- `open(_, 'wb')` / `upload_blob(overwrite=True)`: write an artifact,
replacing any previous content under the same name. -/
def storePut (s : Store) (n : String) (d : Bytes) : Store :=
  (n, d) :: storeDelete s n

/-- One observable operation issued against the storage backend. -/
inductive BackendOp
  | delete (name : String)
  | put (name : String) (data : Bytes)
  deriving DecidableEq

/-- Python `str.replace(old, new)` on character lists: every
non-overlapping occurrence of `old` is replaced, scanning left to right.
`fuel` bounds the recursion; `fuel = s.length` never runs out because each
step consumes at least one character (the pattern used here, `".gz"`, is
nonempty). -/
def pyReplaceAux (old new : List Char) : Nat → List Char → List Char
  | _, [] => []
  | 0, s => s
  | fuel + 1, c :: rest =>
    if !old.isEmpty && old.isPrefixOf (c :: rest) then
      new ++ pyReplaceAux old new fuel ((c :: rest).drop old.length)
    else
      c :: pyReplaceAux old new fuel rest

/-- Python `s.replace(old, new)` for a nonempty pattern `old`. -/
def pyReplace (s old new : String) : String :=
  ⟨pyReplaceAux old.data new.data s.data.length s.data⟩

/-- `filename.replace('.gz', '')` — the name the extract step writes the
decompressed artifact under (both backends). -/
def deriveTsvName (filename : String) : String :=
  pyReplace filename ".gz" ""

/-- Spec-side derivation, for comparison with `deriveTsvName`: the entry
name with its trailing ".gz" suffix removed and the rest unchanged. -/
def specDeriveTsvName (n : String) : String :=
  if ".gz".data.isSuffixOf n.data then ⟨n.data.take (n.data.length - 3)⟩ else n

/-- The outcome of one `session.get(url)` as the downloader observes it:
a possible connection-level transport error, the status line, the body
chunks actually delivered, and a possible transport error occurring after
those chunks, part-way through the body. -/
structure HttpResponse where
  connectError : Option String := none
  status : Nat := 200
  reason : String := ""
  chunks : List Bytes := []
  bodyError : Option String := none
  deriving DecidableEq

/-- `DatasetService._download_file`: local variant.  On status 200 the body
is streamed chunk by chunk into the destination file, so the chunks
delivered before a mid-body transport error are already on disk when the
error is raised.  On any other status nothing is opened and an
`HTTP <status>: <reason>` error is raised.  Every error is re-raised
wrapped as `Failed to download <filename>: ...`. -/
def downloadFile (store : Store) (filename : String) (resp : HttpResponse) :
    Store × List BackendOp × Except String String :=
  match resp.connectError with
  | some e => (store, [], .error ("Failed to download " ++ filename ++ ": " ++ e))
  | none =>
    if resp.status = 200 then
      let written := resp.chunks.flatten
      let store1 := storePut store filename written
      match resp.bodyError with
      | none => (store1, [.put filename written], .ok filename)
      | some e => (store1, [.put filename written],
          .error ("Failed to download " ++ filename ++ ": " ++ e))
    else
      (store, [], .error ("Failed to download " ++ filename ++ ": HTTP "
        ++ toString resp.status ++ ": " ++ resp.reason))

/-- `BlobStorageService._download_file_to_blob`: the whole body is read
into memory by `response.read()` first, so a mid-body transport error
aborts before anything is uploaded; only a fully read 200 body is
uploaded. -/
def downloadFileToBlob (store : Store) (filename : String) (resp : HttpResponse) :
    Store × List BackendOp × Except String String :=
  match resp.connectError with
  | some e => (store, [], .error ("Failed to download " ++ filename ++ ": " ++ e))
  | none =>
    if resp.status = 200 then
      match resp.bodyError with
      | some e => (store, [], .error ("Failed to download " ++ filename ++ ": " ++ e))
      | none =>
        let content := resp.chunks.flatten
        (storePut store filename content, [.put filename content], .ok filename)
    else
      (store, [], .error ("Failed to download " ++ filename ++ ": HTTP "
        ++ toString resp.status ++ ": " ++ resp.reason))

/-- The loop of `DatasetService._clear_existing_files` over the remaining
registry entries, carrying the operations issued so far. -/
def clearExistingFilesGo :
    List (String × String) → Store → List BackendOp → Store × List BackendOp
  | [], store, ops => (store, ops)
  | nu :: rest, store, ops =>
    if storeExists store nu.1 then
      clearExistingFilesGo rest (storeDelete store nu.1) (ops ++ [.delete nu.1])
    else
      clearExistingFilesGo rest store ops

/-- `DatasetService._clear_existing_files`: for each registry name that
exists in the download directory, unlink it. -/
def clearExistingFiles (registry : List (String × String)) (store : Store) :
    Store × List BackendOp :=
  clearExistingFilesGo registry store []

/-- The loop of `BlobStorageService._clear_existing_files` over the blob
listing, deleting each listed name. -/
def clearExistingBlobsGo :
    List (String × Bytes) → Store → List BackendOp → Store × List BackendOp
  | [], store, ops => (store, ops)
  | p :: rest, store, ops =>
    clearExistingBlobsGo rest (storeDelete store p.1) (ops ++ [.delete p.1])

/-- `BlobStorageService._clear_existing_files`: list every blob in the
container and delete each one. -/
def clearExistingBlobs (store : Store) : Store × List BackendOp :=
  clearExistingBlobsGo store store []

/-- Shape of `DownloadResponse` (`app/models/schemas.py`): failures are
(filename, error-text) pairs. -/
structure DownloadResponse where
  message : String
  downloaded_files : List String
  failed_downloads : List (String × String)
  total_files : Nat
  successful_downloads : Nat
  deriving DecidableEq

/-- Shape of `ExtractResponse` (`app/models/schemas.py`). -/
structure ExtractResponse where
  message : String
  extracted_files : List String
  failed_extractions : List (String × String)
  total_files : Nat
  successful_extractions : Nat
  deriving DecidableEq

/-- The task loop shared by both fetch variants: run one download task per
remaining registry entry, carrying the operations issued and the outcomes
collected so far (outcomes stay in registry order, as `asyncio.gather`
preserves task order; the tasks write distinct registry names, so this
linearization is faithful). -/
def gatherDownloadsGo
    (dl : Store → String → HttpResponse → Store × List BackendOp × Except String String)
    (http : String → HttpResponse) :
    List (String × String) → Store → List BackendOp →
      List (String × Except String String) →
      Store × List BackendOp × List (String × Except String String)
  | [], store, ops, results => (store, ops, results)
  | nu :: rest, store, ops, results =>
    let r := dl store nu.1 (http nu.2)
    gatherDownloadsGo dl http rest r.1 (ops ++ r.2.1) (results ++ [(nu.1, r.2.2)])

/-- Run one download task per registry entry and collect each entry's name
next to its outcome. -/
def gatherDownloads
    (dl : Store → String → HttpResponse → Store × List BackendOp × Except String String)
    (http : String → HttpResponse) (registry : List (String × String))
    (store : Store) :
    Store × List BackendOp × List (String × Except String String) :=
  gatherDownloadsGo dl http registry store [] []

/-- The aggregation loop over `asyncio.gather` results: a filename whose
task returned normally goes to `downloaded_files`, one whose task raised
goes to `failed_downloads` with the exception text. -/
def downloadedOf (results : List (String × Except String String)) : List String :=
  results.filterMap (fun p => match p.2 with | .ok _ => some p.1 | .error _ => none)

/-- The failed half of the aggregation loop. -/
def failedOf (results : List (String × Except String String)) :
    List (String × String) :=
  results.filterMap (fun p => match p.2 with | .ok _ => none | .error e => some (p.1, e))

/-- `DatasetService._download_all_datasets_local`: make the directory,
clear existing registry files, fetch every entry concurrently, aggregate.
Also returns the sequence of backend operations the call issued. -/
def downloadAllDatasetsLocal (registry : List (String × String))
    (http : String → HttpResponse) (store : Store) :
    Store × List BackendOp × DownloadResponse :=
  let c := clearExistingFiles registry store
  let g := gatherDownloads downloadFile http registry c.1
  (g.1, c.2 ++ g.2.1,
    { message := "Download completed"
      downloaded_files := downloadedOf g.2.2
      failed_downloads := failedOf g.2.2
      total_files := registry.length
      successful_downloads := (downloadedOf g.2.2).length })

/-- `BlobStorageService.download_all_datasets` after the container has
been ensured: clear all existing blobs, fetch every entry, aggregate. -/
def downloadAllDatasetsBlob (registry : List (String × String))
    (http : String → HttpResponse) (store : Store) :
    Store × List BackendOp × DownloadResponse :=
  let c := clearExistingBlobs store
  let g := gatherDownloads downloadFileToBlob http registry c.1
  (g.1, c.2 ++ g.2.1,
    { message := "Download completed to Azure Blob Storage"
      downloaded_files := downloadedOf g.2.2
      failed_downloads := failedOf g.2.2
      total_files := registry.length
      successful_downloads := (downloadedOf g.2.2).length })

/-- The loop body of `DatasetService._extract_all_datasets_local` for one
registry entry.  Any pre-existing decompressed file is unlinked first;
then the compressed file's existence is checked; then
`gzip.open`/`copyfileobj` streams decompressed chunks straight into the
freshly opened destination file, so the chunks produced before a
mid-stream gzip error are already on disk when the error is raised.
`gunzipStream` models the external gzip library on this path: the chunk
sequence `copyfileobj` obtains, and the error (if any) that ends it. -/
def extractOneLocal (gunzipStream : Bytes → List Bytes × Option String)
    (store : Store) (filename : String) : Store × Except String String :=
  let tsvName := deriveTsvName filename
  let store1 := if storeExists store tsvName then storeDelete store tsvName else store
  match storeGet store1 filename with
  | none => (store1, .error "Compressed file not found")
  | some gzData =>
    let r := gunzipStream gzData
    let store2 := storePut store1 tsvName r.1.flatten
    match r.2 with
    | none => (store2, .ok tsvName)
    | some e => (store2, .error e)

/-- The loop body of `BlobStorageService.extract_all_datasets` for one
registry entry: check the compressed blob exists, download it to memory,
`gzip.decompress` the whole buffer in memory (`gunzip` models the
library call), and only then upload the decompressed blob. -/
def extractOneBlob (gunzip : Bytes → Except String Bytes)
    (store : Store) (filename : String) : Store × Except String String :=
  let tsvName := deriveTsvName filename
  match storeGet store filename with
  | none => (store, .error "Compressed file not found in blob storage")
  | some gzData =>
    match gunzip gzData with
    | .error e => (store, .error e)
    | .ok tsvData => (storePut store tsvName tsvData, .ok tsvName)

/-- The sequential extraction loop shared by both variants, over the
remaining registry entries: the per-entry step either appends the
extracted (decompressed) name to the success list or the entry's own
filename with the error to the failure list. -/
def extractBatchGo (step : Store → String → Store × Except String String) :
    List (String × String) → Store → List String → List (String × String) →
      Store × List String × List (String × String)
  | [], store, ex, fl => (store, ex, fl)
  | nu :: rest, store, ex, fl =>
    let r := step store nu.1
    match r.2 with
    | .ok tsvName => extractBatchGo step rest r.1 (ex ++ [tsvName]) fl
    | .error e => extractBatchGo step rest r.1 ex (fl ++ [(nu.1, e)])

/-- The sequential extraction loop from empty accumulators. -/
def extractBatch (step : Store → String → Store × Except String String)
    (registry : List (String × String)) (store : Store) :
    Store × List String × List (String × String) :=
  extractBatchGo step registry store [] []

/-- `DatasetService._extract_all_datasets_local`: raises when the download
directory is missing; otherwise runs the sequential loop and assembles the
response. -/
def extractAllDatasetsLocal (gunzipStream : Bytes → List Bytes × Option String)
    (registry : List (String × String)) (dirExists : Bool) (store : Store) :
    Except String (Store × ExtractResponse) :=
  if dirExists then
    let b := extractBatch (extractOneLocal gunzipStream) registry store
    .ok (b.1,
      { message := "Extraction completed"
        extracted_files := b.2.1
        failed_extractions := b.2.2
        total_files := registry.length
        successful_extractions := b.2.1.length })
  else
    .error "Extraction failed: Download directory not found. Please download files first."

/-- `BlobStorageService.extract_all_datasets`: the sequential loop over the
registry against the blob container. -/
def extractAllDatasetsBlob (gunzip : Bytes → Except String Bytes)
    (registry : List (String × String)) (store : Store) :
    Store × ExtractResponse :=
  let b := extractBatch (extractOneBlob gunzip) registry store
  (b.1,
    { message := "Extraction completed in Azure Blob Storage"
      extracted_files := b.2.1
      failed_extractions := b.2.2
      total_files := registry.length
      successful_extractions := b.2.1.length })

/-- The two pipeline phases the `/full-process` endpoint can attempt. -/
inductive ProcessStep
  | download
  | extract
  deriving DecidableEq

/-- `full_data_process` (`app/api/v1/datasets.py`): run download; if it
had zero successes raise (surfaced as HTTP 500) before extraction is
attempted; otherwise run extract; if that had zero successes raise.
Returns the phases actually attempted alongside the outcome. -/
def fullDataProcess (runDownload : Unit → DownloadResponse)
    (runExtract : Unit → ExtractResponse) :
    List ProcessStep × Except String Unit :=
  let d := runDownload ()
  if d.successful_downloads = 0 then
    ([ProcessStep.download], .error "No files were downloaded successfully")
  else
    let e := runExtract ()
    if e.successful_extractions = 0 then
      ([ProcessStep.download, ProcessStep.extract],
        .error "No files were extracted successfully")
    else
      ([ProcessStep.download, ProcessStep.extract], .ok ())

/-- The fixed dataset registry (`Settings.imdb_datasets` in
`app/core/config.py`): logical filename ↦ source URL. -/
def imdbDatasets : List (String × String) :=
  [("name.basics.tsv.gz", "https://datasets.imdbws.com/name.basics.tsv.gz"),
   ("title.akas.tsv.gz", "https://datasets.imdbws.com/title.akas.tsv.gz"),
   ("title.basics.tsv.gz", "https://datasets.imdbws.com/title.basics.tsv.gz"),
   ("title.crew.tsv.gz", "https://datasets.imdbws.com/title.crew.tsv.gz"),
   ("title.episode.tsv.gz", "https://datasets.imdbws.com/title.episode.tsv.gz"),
   ("title.principals.tsv.gz", "https://datasets.imdbws.com/title.principals.tsv.gz"),
   ("title.ratings.tsv.gz", "https://datasets.imdbws.com/title.ratings.tsv.gz")]

/-! ### Basic facts about the storage model -/

theorem storeGet_cons (p : String × Bytes) (rest : Store) (m : String) :
    storeGet (p :: rest) m = if p.1 = m then some p.2 else storeGet rest m := by
  by_cases h : p.1 = m
  · have hb : (p.1 == m) = true := by simp [h]
    simp [storeGet, List.find?, hb, h]
  · have hb : (p.1 == m) = false := by simp [h]
    simp [storeGet, List.find?, hb, h]

theorem storeDelete_cons (p : String × Bytes) (rest : Store) (n : String) :
    storeDelete (p :: rest) n =
      if p.1 = n then storeDelete rest n else p :: storeDelete rest n := by
  by_cases h : p.1 = n <;> simp [storeDelete, h]

theorem storeGet_storePut_self (s : Store) (n : String) (d : Bytes) :
    storeGet (storePut s n d) n = some d := by
  simp [storePut, storeGet_cons]

theorem storeGet_storeDelete_self (s : Store) (n : String) :
    storeGet (storeDelete s n) n = none := by
  induction s with
  | nil => rfl
  | cons p rest ih =>
    rw [storeDelete_cons]
    by_cases h : p.1 = n
    · simpa [h] using ih
    · rw [if_neg h, storeGet_cons, if_neg h]; exact ih

theorem storeGet_storeDelete_ne (s : Store) (n m : String) (h : m ≠ n) :
    storeGet (storeDelete s n) m = storeGet s m := by
  induction s with
  | nil => rfl
  | cons p rest ih =>
    rw [storeDelete_cons, storeGet_cons]
    by_cases hp : p.1 = n
    · have hpm : ¬ p.1 = m := fun hq => h (hq ▸ hp.symm ▸ rfl)
      rw [if_pos hp, if_neg hpm]; exact ih
    · rw [if_neg hp, storeGet_cons]
      by_cases hq : p.1 = m
      · rw [if_pos hq, if_pos hq]
      · rw [if_neg hq, if_neg hq]; exact ih

theorem storeGet_storeDelete_none (s : Store) (n m : String)
    (h : storeGet s m = none) : storeGet (storeDelete s n) m = none := by
  by_cases hmn : m = n
  · subst hmn; exact storeGet_storeDelete_self s m
  · rw [storeGet_storeDelete_ne s n m hmn]; exact h

theorem storeGet_storePut_ne (s : Store) (n m : String) (d : Bytes) (h : m ≠ n) :
    storeGet (storePut s n d) m = storeGet s m := by
  rw [storePut, storeGet_cons, if_neg (fun hq : n = m => h hq.symm)]
  exact storeGet_storeDelete_ne s n m h

theorem storeDelete_of_not_exists (s : Store) (n : String)
    (h : storeExists s n = false) : storeDelete s n = s := by
  induction s with
  | nil => rfl
  | cons p rest ih =>
    rw [storeExists, storeGet_cons] at h
    by_cases hp : p.1 = n
    · rw [if_pos hp] at h; simp at h
    · rw [if_neg hp] at h
      rw [storeDelete_cons, if_neg hp, ih h]

/-! ### Facts shared by the batch theorems -/

/-- The aggregation loop sends every gathered outcome to exactly one of
the two lists, keyed by the entry's name. -/
theorem downloadedOf_append_failedOf_perm
    (results : List (String × Except String String)) :
    (downloadedOf results ++ (failedOf results).map Prod.fst).Perm
      (results.map Prod.fst) := by
  induction results with
  | nil => simp [downloadedOf, failedOf]
  | cons p rest ih =>
    cases hp : p.2 with
    | ok v =>
      simp only [downloadedOf, failedOf, List.filterMap_cons, hp, List.map_cons,
        List.cons_append]
      exact ih.cons p.1
    | error e =>
      simp only [downloadedOf, failedOf, List.filterMap_cons, hp, List.map_cons]
      exact List.perm_middle.trans (ih.cons p.1)

/-- The gather loop produces exactly one outcome per registry entry, with
the entry's own name, in registry order. -/
theorem gatherDownloadsGo_results
    (dl : Store → String → HttpResponse → Store × List BackendOp × Except String String)
    (http : String → HttpResponse) :
    ∀ (registry : List (String × String)) (store : Store) (ops : List BackendOp)
      (results : List (String × Except String String)),
      (gatherDownloadsGo dl http registry store ops results).2.2.map Prod.fst =
        results.map Prod.fst ++ registry.map Prod.fst := by
  intro registry
  induction registry with
  | nil => intro store ops results; simp [gatherDownloadsGo]
  | cons nu rest ih =>
    intro store ops results
    simp only [gatherDownloadsGo]
    rw [ih]
    simp

/-- A successful extraction step always reports the derived decompressed
name (local variant). -/
theorem extractOneLocal_ok_name (gz : Bytes → List Bytes × Option String)
    (s : Store) (f t : String)
    (h : (extractOneLocal gz s f).2 = .ok t) : t = deriveTsvName f := by
  simp only [extractOneLocal] at h
  split at h
  · simp at h
  · split at h
    · simpa using h.symm
    · simp at h

/-- A successful extraction step always reports the derived decompressed
name (blob variant). -/
theorem extractOneBlob_ok_name (gz : Bytes → Except String Bytes)
    (s : Store) (f t : String)
    (h : (extractOneBlob gz s f).2 = .ok t) : t = deriveTsvName f := by
  simp only [extractOneBlob] at h
  split at h
  · simp at h
  · split at h
    · simp at h
    · simpa using h.symm

/-- The extraction loop assigns every remaining registry entry to exactly
one of its two lists: successes carry derived names, failures carry the
entry's own name. -/
theorem extractBatchGo_partition
    (step : Store → String → Store × Except String String)
    (hstep : ∀ s f t, (step s f).2 = .ok t → t = deriveTsvName f) :
    ∀ (registry : List (String × String)) (store : Store)
      (ex : List String) (fl : List (String × String)),
      ∃ A B : List String,
        (extractBatchGo step registry store ex fl).2.1 =
          ex ++ A.map deriveTsvName ∧
        ((extractBatchGo step registry store ex fl).2.2).map Prod.fst =
          fl.map Prod.fst ++ B ∧
        (A ++ B).Perm (registry.map Prod.fst) := by
  intro registry
  induction registry with
  | nil =>
    intro store ex fl
    exact ⟨[], [], by simp [extractBatchGo], by simp [extractBatchGo], by simp⟩
  | cons nu rest ih =>
    intro store ex fl
    rcases hs : step store nu.1 with ⟨s2, r⟩
    cases r with
    | ok t =>
      have ht : t = deriveTsvName nu.1 := hstep store nu.1 t (by rw [hs])
      obtain ⟨A, B, h1, h2, h3⟩ := ih s2 (ex ++ [t]) fl
      refine ⟨nu.1 :: A, B, ?_, ?_, ?_⟩
      · simp only [extractBatchGo, hs]
        rw [h1, ht]
        simp
      · simp only [extractBatchGo, hs]
        rw [h2]
      · simpa using h3.cons nu.1
    | error e =>
      obtain ⟨A, B, h1, h2, h3⟩ := ih s2 ex (fl ++ [(nu.1, e)])
      refine ⟨A, nu.1 :: B, ?_, ?_, ?_⟩
      · simp only [extractBatchGo, hs]
        rw [h1]
      · simp only [extractBatchGo, hs]
        rw [h2]
        simp
      · simp only [List.map_cons]
        exact List.perm_middle.trans (h3.cons nu.1)

/-- The fetch aggregation covers the registry keys exactly, for any
per-file download function. -/
theorem gatherResponse_perm
    (dl : Store → String → HttpResponse → Store × List BackendOp × Except String String)
    (http : String → HttpResponse) (registry : List (String × String))
    (store : Store) :
    (downloadedOf (gatherDownloads dl http registry store).2.2 ++
      (failedOf (gatherDownloads dl http registry store).2.2).map Prod.fst).Perm
      (registry.map Prod.fst) := by
  have h := downloadedOf_append_failedOf_perm (gatherDownloads dl http registry store).2.2
  have h2 : (gatherDownloads dl http registry store).2.2.map Prod.fst =
      registry.map Prod.fst := by
    simpa [gatherDownloads] using gatherDownloadsGo_results dl http registry store [] []
  exact h2 ▸ h

/-- `extractBatchGo_partition` from the empty accumulators the orchestrators
start with. -/
theorem extractBatch_partition
    (step : Store → String → Store × Except String String)
    (hstep : ∀ s f t, (step s f).2 = .ok t → t = deriveTsvName f)
    (registry : List (String × String)) (store : Store) :
    ∃ A B : List String,
      (extractBatch step registry store).2.1 = A.map deriveTsvName ∧
      ((extractBatch step registry store).2.2).map Prod.fst = B ∧
      (A ++ B).Perm (registry.map Prod.fst) := by
  obtain ⟨A, B, h1, h2, h3⟩ := extractBatchGo_partition step hstep registry store [] []
  exact ⟨A, B, by simpa [extractBatch] using h1, by simpa [extractBatch] using h2, h3⟩

/-! ### Claims -/

/-- C1 (amended).  Fetch batches: the names in `downloaded_files` together
with the names in `failed_downloads` are, as a multiset, exactly the
registry key multiset — every registry name exactly once — for both the
local and the blob variant.  Extract batches: each registry entry lands in
exactly one of the two lists, but the success list records the derived
decompressed name (`.gz` stripped), not the registry key: there exist
complementary name lists `A`, `B` with `A ++ B` a permutation of the
registry keys such that `extracted_files` is `A` mapped through
`deriveTsvName` while `failed_extractions` carries `B` verbatim.  The
local extraction wrapper returns precisely this batch's lists when the
download directory exists. -/
theorem C1_batch_covers_registry
    (registry : List (String × String)) (http : String → HttpResponse)
    (storeA storeB storeC storeD : Store)
    (gzS : Bytes → List Bytes × Option String)
    (gzB : Bytes → Except String Bytes) :
    (((downloadAllDatasetsLocal registry http storeA).2.2.downloaded_files ++
        ((downloadAllDatasetsLocal registry http storeA).2.2.failed_downloads).map
          Prod.fst).Perm (registry.map Prod.fst)) ∧
    (((downloadAllDatasetsBlob registry http storeB).2.2.downloaded_files ++
        ((downloadAllDatasetsBlob registry http storeB).2.2.failed_downloads).map
          Prod.fst).Perm (registry.map Prod.fst)) ∧
    (∃ A B : List String,
      (extractBatch (extractOneLocal gzS) registry storeC).2.1 =
        A.map deriveTsvName ∧
      ((extractBatch (extractOneLocal gzS) registry storeC).2.2).map Prod.fst = B ∧
      (A ++ B).Perm (registry.map Prod.fst)) ∧
    (∃ A B : List String,
      (extractAllDatasetsBlob gzB registry storeD).2.extracted_files =
        A.map deriveTsvName ∧
      ((extractAllDatasetsBlob gzB registry storeD).2.failed_extractions).map
        Prod.fst = B ∧
      (A ++ B).Perm (registry.map Prod.fst)) ∧
    extractAllDatasetsLocal gzS registry true storeC =
      .ok ((extractBatch (extractOneLocal gzS) registry storeC).1,
        { message := "Extraction completed"
          extracted_files := (extractBatch (extractOneLocal gzS) registry storeC).2.1
          failed_extractions := (extractBatch (extractOneLocal gzS) registry storeC).2.2
          total_files := registry.length
          successful_extractions :=
            (extractBatch (extractOneLocal gzS) registry storeC).2.1.length }) := by
  refine ⟨?_, ?_, ?_, ?_, rfl⟩
  · simpa [downloadAllDatasetsLocal] using
      gatherResponse_perm downloadFile http registry
        (clearExistingFiles registry storeA).1
  · simpa [downloadAllDatasetsBlob] using
      gatherResponse_perm downloadFileToBlob http registry
        (clearExistingBlobs storeB).1
  · exact extractBatch_partition _ (extractOneLocal_ok_name gzS) registry storeC
  · simpa [extractAllDatasetsBlob] using
      extractBatch_partition _ (extractOneBlob_ok_name gzB) registry storeD

/-- C1 counterexample to the claim as stated: in an extract batch over the
single registry entry `"x.tsv.gz"` whose compressed artifact is present,
the success list holds the derived name `"x.tsv"`, so the union of
succeeded and failed names omits the registry key `"x.tsv.gz"`. -/
theorem C1_counterexample :
    "x.tsv.gz" ∈ ([("x.tsv.gz", "u")] : List (String × String)).map Prod.fst ∧
    "x.tsv.gz" ∉
      (extractBatch (extractOneLocal (fun b => ([b], none)))
          [("x.tsv.gz", "u")] [("x.tsv.gz", [1])]).2.1 ++
        ((extractBatch (extractOneLocal (fun b => ([b], none)))
          [("x.tsv.gz", "u")] [("x.tsv.gz", [1])]).2.2).map Prod.fst := by
  decide

/-- C2 (amended).  Blob variant: the whole compressed payload is
decompressed in memory first, so when decompression fails the backend is
left exactly as it was — no partially written decompressed artifact.
Local variant: decompression streams straight into the destination file,
so when decompression fails after producing some chunks the entry is
reported failed but the already-decompressed prefix is left stored under
the derived name. -/
theorem C2_decompress_failure_artifacts
    (gzB : Bytes → Except String Bytes) (gzS : Bytes → List Bytes × Option String)
    (storeB storeL : Store) (f : String) (c : Bytes) (e eS : String)
    (chunks : List Bytes)
    (hB : storeGet storeB f = some c) (hBerr : gzB c = .error e)
    (hL : storeGet storeL f = some c) (hSerr : gzS c = (chunks, some eS))
    (hne : deriveTsvName f ≠ f) :
    extractOneBlob gzB storeB f = (storeB, .error e) ∧
    (extractOneLocal gzS storeL f).2 = .error eS ∧
    storeGet (extractOneLocal gzS storeL f).1 (deriveTsvName f) =
      some chunks.flatten := by
  have hfne : f ≠ deriveTsvName f := fun hq => hne hq.symm
  have hs1 : storeGet
      (if storeExists storeL (deriveTsvName f) then
        storeDelete storeL (deriveTsvName f) else storeL) f = some c := by
    by_cases hex : storeExists storeL (deriveTsvName f)
    · rw [if_pos hex, storeGet_storeDelete_ne _ _ _ hfne]; exact hL
    · rw [if_neg hex]; exact hL
  have hloc : extractOneLocal gzS storeL f =
      (storePut
        (if storeExists storeL (deriveTsvName f) then
          storeDelete storeL (deriveTsvName f) else storeL)
        (deriveTsvName f) chunks.flatten, .error eS) := by
    simp only [extractOneLocal, hs1, hSerr]
  refine ⟨?_, ?_, ?_⟩
  · simp only [extractOneBlob, hB, hBerr]
  · rw [hloc]
  · rw [hloc]
    exact storeGet_storePut_self _ _ _

/-- C2 witness: a gzip stream over `"x.tsv.gz"`'s payload that yields one
chunk and then fails leaves that chunk stored under `"x.tsv"`, while the
blob variant under the same failure leaves the container untouched. -/
theorem C2_decompress_failure_artifacts_witness :
    extractOneBlob (fun _ => .error "bad") [("x.tsv.gz", [1])] "x.tsv.gz" =
      ([("x.tsv.gz", [1])], .error "bad") ∧
    (extractOneLocal (fun _ => ([[7]], some "oops")) [("x.tsv.gz", [1])]
      "x.tsv.gz").2 = .error "oops" ∧
    storeGet (extractOneLocal (fun _ => ([[7]], some "oops")) [("x.tsv.gz", [1])]
      "x.tsv.gz").1 (deriveTsvName "x.tsv.gz") = some [7] :=
  C2_decompress_failure_artifacts (fun _ => .error "bad")
    (fun _ => ([[7]], some "oops")) [("x.tsv.gz", [1])] [("x.tsv.gz", [1])]
    "x.tsv.gz" [1] "bad" "oops" [[7]] (by decide) rfl (by decide) rfl (by decide)

/-- C2 counterexample to the claim as stated: in the local variant a
mid-stream decompression failure leaves a partially written decompressed
artifact (`"x.tsv"` holding the prefix `[1, 2]`) even though the entry is
reported failed. -/
theorem C2_counterexample :
    (extractOneLocal (fun _ => ([[1, 2]], some "corrupt")) [("x.tsv.gz", [9])]
      "x.tsv.gz").2 = .error "corrupt" ∧
    storeGet (extractOneLocal (fun _ => ([[1, 2]], some "corrupt"))
      [("x.tsv.gz", [9])] "x.tsv.gz").1 "x.tsv" = some [1, 2] :=
  ⟨rfl, rfl⟩

/-- C3 (amended).  For a registry entry whose transport succeeds: if the
HTTP status is exactly 200 and the body is fully delivered, the full body
is stored under the entry's name and the task returns the name (which the
aggregator puts in the succeeded list); on any other status — including
2xx codes other than 200 — the task raises `Failed to download <name>:
HTTP <status>: <reason>` (which the aggregator records in the failed
list, the status code appearing inside the error text) and no backend
operation is issued, so no artifact is written for that name.  Both
variants behave identically here. -/
theorem C3_download_status_handling (store : Store) (f : String)
    (resp : HttpResponse) (hconn : resp.connectError = none) :
    (resp.status = 200 → resp.bodyError = none →
      downloadFile store f resp =
        (storePut store f resp.chunks.flatten, [.put f resp.chunks.flatten],
          .ok f) ∧
      downloadFileToBlob store f resp =
        (storePut store f resp.chunks.flatten, [.put f resp.chunks.flatten],
          .ok f)) ∧
    (resp.status ≠ 200 →
      downloadFile store f resp = (store, [],
        .error ("Failed to download " ++ f ++ ": HTTP " ++ toString resp.status
          ++ ": " ++ resp.reason)) ∧
      downloadFileToBlob store f resp = (store, [],
        .error ("Failed to download " ++ f ++ ": HTTP " ++ toString resp.status
          ++ ": " ++ resp.reason)) ∧
      List.IsInfix (toString resp.status).data
        ("Failed to download " ++ f ++ ": HTTP " ++ toString resp.status
          ++ ": " ++ resp.reason).data) := by
  constructor
  · intro h200 hbody
    constructor
    · simp [downloadFile, hconn, h200, hbody]
    · simp [downloadFileToBlob, hconn, h200, hbody]
  · intro hne
    refine ⟨?_, ?_, ?_⟩
    · simp [downloadFile, hconn, hne]
    · simp [downloadFileToBlob, hconn, hne]
    · exact ⟨("Failed to download " ++ f ++ ": HTTP ").data,
        (": " ++ resp.reason).data, by simp⟩

/-- C3 witness: a 200 response with body `[1, 2, 3]` is stored in full for
`"x.tsv.gz"`, while a 404 response yields the failure string carrying the
status code and issues no backend operation. -/
theorem C3_download_status_handling_witness :
    (downloadFile [] "x.tsv.gz" { chunks := [[1, 2], [3]] } =
      (storePut [] "x.tsv.gz" [1, 2, 3], [.put "x.tsv.gz" [1, 2, 3]],
        .ok "x.tsv.gz") ∧
     downloadFileToBlob [] "x.tsv.gz" { chunks := [[1, 2], [3]] } =
      (storePut [] "x.tsv.gz" [1, 2, 3], [.put "x.tsv.gz" [1, 2, 3]],
        .ok "x.tsv.gz")) ∧
    downloadFile [] "x.tsv.gz"
        { status := 404, reason := "Not Found" } =
      ([], [], .error "Failed to download x.tsv.gz: HTTP 404: Not Found") :=
  ⟨(C3_download_status_handling [] "x.tsv.gz" { chunks := [[1, 2], [3]] }
      rfl).1 rfl rfl,
   ((C3_download_status_handling [] "x.tsv.gz"
      { status := 404, reason := "Not Found" } rfl).2 (by decide)).1⟩

/-- C3 counterexample to the claim as stated: status 201 is a 2xx success
code, yet the downloader treats it as a failure — nothing is stored and
the task raises — in both variants. -/
theorem C3_counterexample :
    (200 ≤ 201 ∧ 201 < 300) ∧
    downloadFile [] "f" { status := 201, reason := "Created", chunks := [[7]] } =
      ([], [], .error "Failed to download f: HTTP 201: Created") ∧
    downloadFileToBlob [] "f"
        { status := 201, reason := "Created", chunks := [[7]] } =
      ([], [], .error "Failed to download f: HTTP 201: Created") :=
  ⟨by decide, rfl, rfl⟩

/-- C4 (amended).  A registry entry whose compressed artifact is absent at
the time of the check fails without writing any decompressed artifact in
both variants, but the error texts differ: the local variant reports
exactly "Compressed file not found", the blob variant "Compressed file
not found in blob storage".  Locally the only backend change is the
removal of any stale decompressed artifact; the blob store is untouched. -/
theorem C4_missing_compressed_artifact
    (gzS : Bytes → List Bytes × Option String) (gzB : Bytes → Except String Bytes)
    (storeL storeB : Store) (f : String)
    (hL : storeGet storeL f = none) (hB : storeGet storeB f = none) :
    (extractOneLocal gzS storeL f).2 = .error "Compressed file not found" ∧
    storeGet (extractOneLocal gzS storeL f).1 (deriveTsvName f) = none ∧
    (∀ m, m ≠ deriveTsvName f →
      storeGet (extractOneLocal gzS storeL f).1 m = storeGet storeL m) ∧
    extractOneBlob gzB storeB f =
      (storeB, .error "Compressed file not found in blob storage") := by
  have hs1 : storeGet
      (if storeExists storeL (deriveTsvName f) then
        storeDelete storeL (deriveTsvName f) else storeL) f = none := by
    by_cases hex : storeExists storeL (deriveTsvName f)
    · rw [if_pos hex]; exact storeGet_storeDelete_none _ _ _ hL
    · rw [if_neg hex]; exact hL
  have hloc : extractOneLocal gzS storeL f =
      ((if storeExists storeL (deriveTsvName f) then
          storeDelete storeL (deriveTsvName f) else storeL),
        .error "Compressed file not found") := by
    simp only [extractOneLocal, hs1]
  refine ⟨by rw [hloc], ?_, ?_, by simp only [extractOneBlob, hB]⟩
  · rw [hloc]
    by_cases hex : storeExists storeL (deriveTsvName f)
    · rw [if_pos hex]; exact storeGet_storeDelete_self _ _
    · rw [if_neg hex]
      simp only [storeExists, Option.isSome] at hex
      cases hg : storeGet storeL (deriveTsvName f) with
      | none => rfl
      | some v => rw [hg] at hex; simp at hex
  · intro m hm
    rw [hloc]
    by_cases hex : storeExists storeL (deriveTsvName f)
    · rw [if_pos hex]; exact storeGet_storeDelete_ne _ _ _ hm
    · rw [if_neg hex]

/-- C4 witness: with `"x.tsv.gz"` absent, the local variant (holding a
stale `"x.tsv"`) fails with exactly "Compressed file not found" and ends
with no `"x.tsv"` artifact; the empty blob container fails with the
longer blob message and stays empty. -/
theorem C4_missing_compressed_artifact_witness :
    (extractOneLocal (fun b => ([b], none)) [("x.tsv", [7])] "x.tsv.gz").2 =
      .error "Compressed file not found" ∧
    storeGet (extractOneLocal (fun b => ([b], none)) [("x.tsv", [7])]
      "x.tsv.gz").1 (deriveTsvName "x.tsv.gz") = none ∧
    (∀ m, m ≠ deriveTsvName "x.tsv.gz" →
      storeGet (extractOneLocal (fun b => ([b], none)) [("x.tsv", [7])]
        "x.tsv.gz").1 m = storeGet [("x.tsv", [7])] m) ∧
    extractOneBlob (fun b => .ok b) [] "x.tsv.gz" =
      ([], .error "Compressed file not found in blob storage") :=
  C4_missing_compressed_artifact (fun b => ([b], none)) (fun b => .ok b)
    [("x.tsv", [7])] [] "x.tsv.gz" (by decide) (by decide)

/-- C4 counterexample to the claim as stated: the blob variant's error
text is not exactly "Compressed file not found". -/
theorem C4_counterexample :
    (extractOneBlob (fun b => .ok b) [] "x.tsv.gz").2 =
      .error "Compressed file not found in blob storage" ∧
    "Compressed file not found in blob storage" ≠ "Compressed file not found" :=
  ⟨rfl, by decide⟩

/-- Every operation the local clear loop adds to its accumulator is a
delete. -/
theorem clearExistingFilesGo_deletes :
    ∀ (registry : List (String × String)) (store : Store) (ops : List BackendOp),
      (∀ op ∈ ops, ∃ n, op = .delete n) →
      ∀ op ∈ (clearExistingFilesGo registry store ops).2, ∃ n, op = .delete n := by
  intro registry
  induction registry with
  | nil => intro store ops h; simpa [clearExistingFilesGo] using h
  | cons nu rest ih =>
    intro store ops h
    rw [clearExistingFilesGo]
    split
    · apply ih
      intro op hop
      rcases List.mem_append.1 hop with h1 | h1
      · exact h op h1
      · simp at h1; exact ⟨nu.1, h1⟩
    · exact ih store ops h

/-- Every operation the blob clear loop adds to its accumulator is a
delete. -/
theorem clearExistingBlobsGo_deletes :
    ∀ (blobs : List (String × Bytes)) (store : Store) (ops : List BackendOp),
      (∀ op ∈ ops, ∃ n, op = .delete n) →
      ∀ op ∈ (clearExistingBlobsGo blobs store ops).2, ∃ n, op = .delete n := by
  intro blobs
  induction blobs with
  | nil => intro store ops h; simpa [clearExistingBlobsGo] using h
  | cons p rest ih =>
    intro store ops h
    rw [clearExistingBlobsGo]
    apply ih
    intro op hop
    rcases List.mem_append.1 hop with h1 | h1
    · exact h op h1
    · simp at h1; exact ⟨p.1, h1⟩

/-- The local per-file download issues only put operations. -/
theorem downloadFile_ops_puts (store : Store) (f : String) (resp : HttpResponse) :
    ∀ op ∈ (downloadFile store f resp).2.1, ∃ n d, op = .put n d := by
  intro op hop
  simp only [downloadFile] at hop
  split at hop
  · simp at hop
  · split at hop
    · split at hop <;> (simp at hop; exact ⟨f, resp.chunks.flatten, hop⟩)
    · simp at hop

/-- The blob per-file download issues only put operations. -/
theorem downloadFileToBlob_ops_puts (store : Store) (f : String)
    (resp : HttpResponse) :
    ∀ op ∈ (downloadFileToBlob store f resp).2.1, ∃ n d, op = .put n d := by
  intro op hop
  simp only [downloadFileToBlob] at hop
  split at hop
  · simp at hop
  · split at hop
    · split at hop
      · simp at hop
      · simp at hop; exact ⟨f, resp.chunks.flatten, hop⟩
    · simp at hop

/-- If the per-file download issues only puts, so does the whole gather
loop. -/
theorem gatherDownloadsGo_ops_puts
    (dl : Store → String → HttpResponse → Store × List BackendOp × Except String String)
    (http : String → HttpResponse)
    (hdl : ∀ s f r, ∀ op ∈ (dl s f r).2.1, ∃ n d, op = .put n d) :
    ∀ (registry : List (String × String)) (store : Store) (ops : List BackendOp)
      (results : List (String × Except String String)),
      (∀ op ∈ ops, ∃ n d, op = .put n d) →
      ∀ op ∈ (gatherDownloadsGo dl http registry store ops results).2.1,
        ∃ n d, op = .put n d := by
  intro registry
  induction registry with
  | nil => intro store ops results h; simpa [gatherDownloadsGo] using h
  | cons nu rest ih =>
    intro store ops results h
    simp only [gatherDownloadsGo]
    apply ih
    intro op hop
    rcases List.mem_append.1 hop with h1 | h1
    · exact h op h1
    · exact hdl store nu.1 (http nu.2) op h1

/-- C5.  In one fetch-all call, every backend operation of the clear phase
precedes every put of newly downloaded data: for both variants the
operation trace splits as a block of deletes (the clear) followed by a
block of puts (the downloads), so no put precedes the clear. -/
theorem C5_clear_before_put (registry : List (String × String))
    (http : String → HttpResponse) (storeL storeB : Store) :
    ∃ delsL putsL delsB putsB : List BackendOp,
      (downloadAllDatasetsLocal registry http storeL).2.1 = delsL ++ putsL ∧
      (∀ op ∈ delsL, ∃ n, op = .delete n) ∧
      (∀ op ∈ putsL, ∃ n d, op = .put n d) ∧
      (downloadAllDatasetsBlob registry http storeB).2.1 = delsB ++ putsB ∧
      (∀ op ∈ delsB, ∃ n, op = .delete n) ∧
      (∀ op ∈ putsB, ∃ n d, op = .put n d) := by
  refine ⟨(clearExistingFiles registry storeL).2,
    (gatherDownloads downloadFile http registry
      (clearExistingFiles registry storeL).1).2.1,
    (clearExistingBlobs storeB).2,
    (gatherDownloads downloadFileToBlob http registry
      (clearExistingBlobs storeB).1).2.1, rfl, ?_, ?_, rfl, ?_, ?_⟩
  · exact clearExistingFilesGo_deletes registry storeL [] (by simp)
  · exact gatherDownloadsGo_ops_puts downloadFile http downloadFile_ops_puts
      registry (clearExistingFiles registry storeL).1 [] [] (by simp)
  · exact clearExistingBlobsGo_deletes storeB storeB [] (by simp)
  · exact gatherDownloadsGo_ops_puts downloadFileToBlob http
      downloadFileToBlob_ops_puts registry (clearExistingBlobs storeB).1 [] []
      (by simp)

/-- C6.  If the stored compressed artifact for a registry entry is a valid
gzip encoding of plaintext `p` — i.e. the gzip library decompresses it to
`p` (whole-buffer in the blob variant, as an error-free chunk stream
flattening to `p` in the local variant) — then extracting and reading the
artifact stored under the derived decompressed name returns exactly `p`,
and the entry is reported succeeded under the derived name. -/
theorem C6_extract_roundtrip
    (gzB : Bytes → Except String Bytes) (gzS : Bytes → List Bytes × Option String)
    (storeB storeL : Store) (f : String) (c p : Bytes) (chunks : List Bytes)
    (hB : storeGet storeB f = some c) (hgB : gzB c = .ok p)
    (hL : storeGet storeL f = some c) (hgS : gzS c = (chunks, none))
    (hflat : chunks.flatten = p) (hne : deriveTsvName f ≠ f) :
    (extractOneBlob gzB storeB f).2 = .ok (deriveTsvName f) ∧
    storeGet (extractOneBlob gzB storeB f).1 (deriveTsvName f) = some p ∧
    (extractOneLocal gzS storeL f).2 = .ok (deriveTsvName f) ∧
    storeGet (extractOneLocal gzS storeL f).1 (deriveTsvName f) = some p := by
  have hfne : f ≠ deriveTsvName f := fun hq => hne hq.symm
  have hblob : extractOneBlob gzB storeB f =
      (storePut storeB (deriveTsvName f) p, .ok (deriveTsvName f)) := by
    simp only [extractOneBlob, hB, hgB]
  have hs1 : storeGet
      (if storeExists storeL (deriveTsvName f) then
        storeDelete storeL (deriveTsvName f) else storeL) f = some c := by
    by_cases hex : storeExists storeL (deriveTsvName f)
    · rw [if_pos hex, storeGet_storeDelete_ne _ _ _ hfne]; exact hL
    · rw [if_neg hex]; exact hL
  have hloc : extractOneLocal gzS storeL f =
      (storePut
        (if storeExists storeL (deriveTsvName f) then
          storeDelete storeL (deriveTsvName f) else storeL)
        (deriveTsvName f) chunks.flatten, .ok (deriveTsvName f)) := by
    simp only [extractOneLocal, hs1, hgS]
  refine ⟨by rw [hblob], ?_, by rw [hloc], ?_⟩
  · rw [hblob]; exact storeGet_storePut_self _ _ _
  · rw [hloc, hflat]; exact storeGet_storePut_self _ _ _

/-- C6 witness: with gzip modelled as the identity codec on the payload
`[5, 6]` held by `"x.tsv.gz"`, extract-then-get under `"x.tsv"` returns
`[5, 6]` in both variants. -/
theorem C6_extract_roundtrip_witness :
    (extractOneBlob (fun b => .ok b) [("x.tsv.gz", [5, 6])] "x.tsv.gz").2 =
      .ok (deriveTsvName "x.tsv.gz") ∧
    storeGet (extractOneBlob (fun b => .ok b) [("x.tsv.gz", [5, 6])]
      "x.tsv.gz").1 (deriveTsvName "x.tsv.gz") = some [5, 6] ∧
    (extractOneLocal (fun b => ([b], none)) [("x.tsv.gz", [5, 6])]
      "x.tsv.gz").2 = .ok (deriveTsvName "x.tsv.gz") ∧
    storeGet (extractOneLocal (fun b => ([b], none)) [("x.tsv.gz", [5, 6])]
      "x.tsv.gz").1 (deriveTsvName "x.tsv.gz") = some [5, 6] :=
  C6_extract_roundtrip (fun b => .ok b) (fun b => ([b], none))
    [("x.tsv.gz", [5, 6])] [("x.tsv.gz", [5, 6])] "x.tsv.gz" [5, 6] [5, 6]
    [[5, 6]] (by decide) rfl (by decide) rfl rfl (by decide)

/-- C7.  When the download phase reports zero successful downloads, the
full-process endpoint raises "No files were downloaded successfully"
(surfaced as overall failure) and the extraction phase is never
attempted. -/
theorem C7_zero_downloads_aborts
    (runDownload : Unit → DownloadResponse) (runExtract : Unit → ExtractResponse)
    (h : (runDownload ()).successful_downloads = 0) :
    fullDataProcess runDownload runExtract =
      ([ProcessStep.download], .error "No files were downloaded successfully") ∧
    ProcessStep.extract ∉ (fullDataProcess runDownload runExtract).1 := by
  have hfp : fullDataProcess runDownload runExtract =
      ([ProcessStep.download], .error "No files were downloaded successfully") := by
    simp [fullDataProcess, h]
  exact ⟨hfp, by rw [hfp]; decide⟩

/-- A download batch result in which the single entry failed. -/
def allFailedDownload : DownloadResponse :=
  { message := "Download completed", downloaded_files := [],
    failed_downloads := [("x.tsv.gz", "boom")], total_files := 1,
    successful_downloads := 0 }

/-- An extract batch result with one success, for exercising
`fullDataProcess`. -/
def oneOkExtract : ExtractResponse :=
  { message := "Extraction completed", extracted_files := ["x.tsv"],
    failed_extractions := [], total_files := 1, successful_extractions := 1 }

/-- C7 witness: a download phase whose only entry failed aborts the
process before extraction. -/
theorem C7_zero_downloads_aborts_witness :
    fullDataProcess (fun _ => allFailedDownload) (fun _ => oneOkExtract) =
      ([ProcessStep.download], .error "No files were downloaded successfully") ∧
    ProcessStep.extract ∉
      (fullDataProcess (fun _ => allFailedDownload) (fun _ => oneOkExtract)).1 :=
  C7_zero_downloads_aborts _ _ rfl

/-- C8.  For every name in the fixed registry, the decompressed name the
extract operation derives (Python `replace('.gz', '')`, which would drop
every occurrence) coincides with stripping the trailing ".gz" suffix and
leaving the rest unchanged: appending ".gz" to the derived name gives the
entry name back, and the derivation agrees with the spec-side
`specDeriveTsvName`. -/
theorem C8_derived_name_strips_suffix :
    ∀ name ∈ imdbDatasets.map Prod.fst,
      deriveTsvName name = specDeriveTsvName name ∧
      (deriveTsvName name).data ++ ".gz".data = name.data := by
  decide

/-- C8 witness: the spec's own example, `"title.basics.tsv.gz"` ↦
`"title.basics.tsv"`. -/
theorem C8_derived_name_strips_suffix_witness :
    deriveTsvName "title.basics.tsv.gz" = specDeriveTsvName "title.basics.tsv.gz" ∧
    (deriveTsvName "title.basics.tsv.gz").data ++ ".gz".data =
      "title.basics.tsv.gz".data :=
  C8_derived_name_strips_suffix "title.basics.tsv.gz" (by decide)

/-- C9.  In the local extract loop, the pre-existing decompressed artifact
under the derived name is unlinked before the compressed artifact's
existence is checked: when the entry then fails with "Compressed file not
found", the backend state is exactly the original minus that stale
artifact, which is therefore gone. -/
theorem C9_stale_artifact_deleted
    (gzS : Bytes → List Bytes × Option String) (store : Store) (f : String)
    (hex : storeExists store (deriveTsvName f) = true)
    (habs : storeGet store f = none) :
    extractOneLocal gzS store f =
      (storeDelete store (deriveTsvName f), .error "Compressed file not found") ∧
    storeGet (storeDelete store (deriveTsvName f)) (deriveTsvName f) = none := by
  have hs1 : storeGet (storeDelete store (deriveTsvName f)) f = none :=
    storeGet_storeDelete_none _ _ _ habs
  refine ⟨?_, storeGet_storeDelete_self _ _⟩
  simp only [extractOneLocal, hex, if_true, hs1]

/-- C9 witness: with a stale `"x.tsv"` present and `"x.tsv.gz"` absent,
the loop body fails with "Compressed file not found" and the stale
`"x.tsv"` has been deleted, not preserved. -/
theorem C9_stale_artifact_deleted_witness :
    extractOneLocal (fun b => ([b], none)) [("x.tsv", [7])] "x.tsv.gz" =
      (storeDelete [("x.tsv", [7])] (deriveTsvName "x.tsv.gz"),
        .error "Compressed file not found") ∧
    storeGet (storeDelete [("x.tsv", [7])] (deriveTsvName "x.tsv.gz"))
      (deriveTsvName "x.tsv.gz") = none :=
  C9_stale_artifact_deleted (fun b => ([b], none)) [("x.tsv", [7])] "x.tsv.gz"
    (by decide) (by decide)

/-- C10.  The local per-file download streams the body chunk by chunk into
the destination file; if a transport error occurs after some chunks were
delivered, the task raises (so the aggregator reports the entry failed)
but the partially written artifact — the flattened prefix of chunks —
remains stored under the entry's name.  For a single-entry batch the
entry indeed lands in `failed_downloads` while its partial artifact is in
the final store. -/
theorem C10_partial_body_left_on_disk (store : Store) (f u : String)
    (http : String → HttpResponse) (e : String)
    (hconn : (http u).connectError = none) (hst : (http u).status = 200)
    (hbody : (http u).bodyError = some e) :
    (downloadFile store f (http u)).2.2 =
      .error ("Failed to download " ++ f ++ ": " ++ e) ∧
    storeGet (downloadFile store f (http u)).1 f =
      some (http u).chunks.flatten ∧
    ((downloadAllDatasetsLocal [(f, u)] http store).2.2.failed_downloads).map
      Prod.fst = [f] ∧
    (downloadAllDatasetsLocal [(f, u)] http store).2.2.downloaded_files = [] ∧
    storeGet (downloadAllDatasetsLocal [(f, u)] http store).1 f =
      some (http u).chunks.flatten := by
  have hdf : ∀ s : Store, downloadFile s f (http u) =
      (storePut s f (http u).chunks.flatten,
        [.put f (http u).chunks.flatten],
        .error ("Failed to download " ++ f ++ ": " ++ e)) := by
    intro s
    simp [downloadFile, hconn, hst, hbody]
  refine ⟨by rw [hdf store], ?_, ?_, ?_, ?_⟩
  · rw [hdf store]; exact storeGet_storePut_self _ _ _
  · simp [downloadAllDatasetsLocal, gatherDownloads, gatherDownloadsGo, hdf,
      failedOf]
  · simp [downloadAllDatasetsLocal, gatherDownloads, gatherDownloadsGo, hdf,
      downloadedOf]
  · simp only [downloadAllDatasetsLocal, gatherDownloads, gatherDownloadsGo, hdf]
    exact storeGet_storePut_self _ _ _

/-- A 200 response that delivers `[1, 2]` then `[3]` and is then cut off
by a transport error. -/
def resetResponse : HttpResponse :=
  { status := 200, chunks := [[1, 2], [3]], bodyError := some "reset" }

/-- C10 witness: the `resetResponse` download leaves `[1, 2, 3]` stored
under `"x.tsv.gz"` while the batch reports the entry failed. -/
theorem C10_partial_body_left_on_disk_witness :
    (downloadFile [] "x.tsv.gz"
        ((fun _ : String => resetResponse) "u")).2.2 =
      .error ("Failed to download " ++ "x.tsv.gz" ++ ": " ++ "reset") ∧
    storeGet (downloadFile [] "x.tsv.gz"
        ((fun _ : String => resetResponse) "u")).1 "x.tsv.gz" =
      some ((fun _ : String => resetResponse) "u").chunks.flatten ∧
    ((downloadAllDatasetsLocal [("x.tsv.gz", "u")]
        (fun _ : String => resetResponse) []).2.2.failed_downloads).map
      Prod.fst = ["x.tsv.gz"] ∧
    (downloadAllDatasetsLocal [("x.tsv.gz", "u")]
        (fun _ : String => resetResponse) []).2.2.downloaded_files = [] ∧
    storeGet (downloadAllDatasetsLocal [("x.tsv.gz", "u")]
        (fun _ : String => resetResponse) []).1 "x.tsv.gz" =
      some ((fun _ : String => resetResponse) "u").chunks.flatten :=
  C10_partial_body_left_on_disk [] "x.tsv.gz" "u"
    (fun _ : String => resetResponse) "reset" rfl rfl rfl

end IMDbDownloader
